import Mathlib

/-!
# Verification of dns_reverse_proxy.go

A shallow embedding of the DNS reverse proxy (`src/dns_reverse_proxy.go`).
Strings are modelled as lists of characters (`Str`), DNS messages as their
question sections, the network as an oracle (`Network`) supplying the results
of upstream exchanges and zone transfers, and the per-query handler `route`
as a pure function from configuration, oracle, client identity and query to
a `HandlerResult` recording the response written to the client and the list
of upstream contacts attempted.
-/

namespace DnsReverseProxy

/-- Go strings, modelled as lists of characters. -/
abbrev Str := List Char

/-- Coerce a Lean string literal into the model's string type. -/
def str (s : String) : Str := s.data

/-- `dns.TypeIXFR` from the miekg/dns library (incremental zone transfer). -/
def TypeIXFR : Nat := 251

/-- `dns.TypeAXFR` from the miekg/dns library (full zone transfer). -/
def TypeAXFR : Nat := 252

/-- One entry of a DNS message's question section: `dns.Question`. -/
structure Question where
  name : Str
  qtype : Nat
  qclass : Nat
  deriving DecidableEq

/-- A DNS message (`dns.Msg`), reduced to the part the proxy inspects:
its question section.  The handler treats the rest of the message opaquely. -/
structure Msg where
  question : List Question
  deriving DecidableEq

/-- The transport of a connection: `"udp"` or `"tcp"` in the Go source. -/
inductive Transport where
  | udp
  | tcp
  deriving DecidableEq

/-- The client identity visible to the handler through `dns.ResponseWriter`:
`w.RemoteAddr().String()` and whether `w.RemoteAddr()` is a `*net.TCPAddr`
(line 142 of the source). -/
structure ClientId where
  remoteAddr : Str
  remoteIsTCP : Bool
  deriving DecidableEq

/-- Index of the first occurrence of a character in a string. -/
def idxOf? (c : Char) (s : Str) : Option Nat :=
  s.findIdx? (· == c)

/-- Index of the last occurrence of a character in a string
(Go's `last` helper used by `net.SplitHostPort`). -/
def lastIdxOf? (c : Char) (s : Str) : Option Nat :=
  match s.reverse.findIdx? (· == c) with
  | none => none
  | some i => some (s.length - 1 - i)

/-- Go's `net.SplitHostPort`: splits `host:port` (or `[host]:port`) into host
and port; `none` models a non-nil error.  Translated from the Go standard
library implementation: the port starts after the last colon; a leading `[`
opens a bracketed host whose closing `]` must sit just before that colon;
an unbracketed host may not contain a colon, and stray brackets are errors. -/
def splitHostPort (hostport : Str) : Option (Str × Str) :=
  match lastIdxOf? ':' hostport with
  | none => none
  | some i =>
    if hostport.head? == some '[' then
      match idxOf? ']' hostport with
      | none => none
      | some e =>
        if e + 1 == hostport.length then none
        else if e + 1 == i then
          if (hostport.drop 1).contains '[' then none
          else if (hostport.drop (e + 1)).contains ']' then none
          else some ((hostport.drop 1).take (e - 1), hostport.drop (i + 1))
        else none
    else
      if (hostport.take i).contains ':' then none
      else if hostport.contains '[' then none
      else if hostport.contains ']' then none
      else some (hostport.take i, hostport.drop (i + 1))

/-- `validHostPort` (source lines 94-100): `net.SplitHostPort` must succeed
with a nonempty host and a nonempty port. -/
def validHostPort (s : Str) : Bool :=
  match splitHostPort s with
  | none => false
  | some (host, port) => !(host == []) && !(port == [])

/-- The value of `remote` in `allowed` (source line 131):
`remote, _, _ := net.SplitHostPort(w.RemoteAddr().String())`.  Go discards
the error, so on a split error `remote` is the zero value `""`. -/
def remoteHost (addr : Str) : Str :=
  match splitHostPort addr with
  | none => []
  | some (host, _) => host

/-- The built-in public resolver pool `publicServer` (source lines 42-47),
verbatim. -/
def publicServer : List Str :=
  [str "1.1.1.1:53", str "8.8.8.8:53", str "8.8.4.4:53", str "209.244.0.3",
   str "209.244.0.4", str "64.6.64.6", str "64.6.65.6", str "9.9.9.9:53",
   str "149.112.112.112:53", str "84.200.69.80:53", str "84.200.70.40:53",
   str "8.26.56.26:53", str "8.20.247.20:53", str "208.67.222.222:53",
   str "208.67.220.220", str "199.85.126.10:53", str "199.85.127.10:53",
   str "81.218.119.11:53", str "209.88.198.133:53", str "195.46.39.39:53",
   str "195.46.39.40:53", str "69.195.152.204:53", str "23.94.60.240:53",
   str "208.76.50.50:53", str "208.76.51.51:53", str "216.146.35.35:53",
   str "216.146.36.36:53", str "37.235.1.174:53", str "37.235.1.177:53",
   str "198.101.242.72:53", str "23.253.163.53:53", str "77.88.8.8:53",
   str "77.88.8.1:53", str "91.239.100.100:53"]

/-- `randomPublicServer` (source lines 50-53):
`publicServer[rand.Intn(len(publicServer))]`.  The random draw is modelled by
the parameter `k`; `rand.Intn` yields an index below the pool's length, which
`k % publicServer.length` ranges over exactly as `k` ranges over `Nat`. -/
def randomPublicServer (k : Nat) : Str :=
  publicServer.getD (k % publicServer.length) []

/-- The loop body of `isTransfer` (source lines 118-124): scan the question
entries; the switch fires on `dns.TypeIXFR` or `dns.TypeAXFR`. -/
def isTransferQ : List Question → Bool
  | [] => false
  | q :: qs => if q.qtype == TypeIXFR || q.qtype == TypeAXFR then true else isTransferQ qs

/-- `isTransfer` (source lines 117-125): whether any question entry has
record type AXFR or IXFR.  Pure: inspects the message only. -/
def isTransfer (req : Msg) : Bool :=
  isTransferQ req.question

/-- `allowed` (source lines 127-138): non-transfer queries are always
allowed; a transfer query is allowed iff some entry of `transferIPs` equals
the host portion of the client's remote address. -/
def allowed (transferIPs : List Str) (cid : ClientId) (req : Msg) : Bool :=
  if !isTransfer req then true
  else
    let remote := remoteHost cid.remoteAddr
    transferIPs.any (fun ip => ip == remote)

/-- The response the handler writes back to the client. -/
inductive Response where
  /-- An ordinary reply, written by `w.WriteMsg(resp)` (source line 168). -/
  | answer (m : Msg)
  /-- A zone-transfer stream of envelopes, written by `t.Out` (source line 156). -/
  | transferStream (msgs : List Msg)
  /-- `dns.HandleFailed(w, req)`: the standard failure response. -/
  | failure
  deriving DecidableEq

/-- The observable outcome of handling one query: the response written to
the client plus the list of upstream contacts attempted, each with the
transport used. -/
structure HandlerResult where
  response : Response
  contacted : List (Str × Transport)
  deriving DecidableEq

/-- The network oracle: results of the upstream operations the proxy may
perform.  `exchange` models `(&dns.Client{Net: transport}).Exchange(req, addr)`
(`none` is a transport error), `transferIn` models `t.In(req, addr)` returning
the envelope stream or an error, and `transferOut` models whether
`t.Out(w, req, c)` succeeds. -/
structure Network where
  exchange : Transport → Str → Msg → Option Msg
  transferIn : Str → Msg → Option (List Msg)
  transferOut : Str → Msg → List Msg → Bool

/-- `proxy` (source lines 140-169).  The outbound transport is `"tcp"` iff
the client's remote address is a `*net.TCPAddr`, else `"udp"`.  A transfer
query over a non-TCP transport fails before any upstream contact; otherwise
a transfer runs `t.In` then `t.Out`, failing on either error; an ordinary
query performs exactly one exchange over the inbound transport, writing the
reply verbatim on success and the standard failure on error. -/
def proxy (net : Network) (addr : Str) (cid : ClientId) (req : Msg) : HandlerResult :=
  let transport := if cid.remoteIsTCP then Transport.tcp else Transport.udp
  if isTransfer req then
    if transport ≠ Transport.tcp then ⟨Response.failure, []⟩
    else
      match net.transferIn addr req with
      | none => ⟨Response.failure, [(addr, Transport.tcp)]⟩
      | some msgs =>
        if net.transferOut addr req msgs then
          ⟨Response.transferStream msgs, [(addr, Transport.tcp)]⟩
        else ⟨Response.failure, [(addr, Transport.tcp)]⟩
  else
    match net.exchange transport addr req with
    | none => ⟨Response.failure, [(addr, transport)]⟩
    | some resp => ⟨Response.answer resp, [(addr, transport)]⟩

/-- The upstream-selection loop of `route` (source lines 107-114): the first
route (in the map's iteration order, modelled by the list order) whose suffix
key is a trailing substring of the first question's name wins; if none
matches, fall back to `randomPublicServer`. -/
def selectUpstream (routes : List (Str × Str)) (k : Nat) (name : Str) : Str :=
  match routes.find? (fun p => p.1.isSuffixOf name) with
  | some p => p.2
  | none => randomPublicServer k

/-- `route` (source lines 102-115), the per-query handler: a query with an
empty question section, or a disallowed transfer, gets the standard failure
response with no upstream contact; otherwise the query is proxied to the
upstream selected for the first question's name. -/
def route (routes : List (Str × Str)) (transferIPs : List Str) (net : Network)
    (k : Nat) (cid : ClientId) (req : Msg) : HandlerResult :=
  if req.question.length == 0 || !allowed transferIPs cid req then ⟨Response.failure, []⟩
  else
    match req.question.head? with
    | none => ⟨Response.failure, []⟩
    | some q => proxy net (selectUpstream routes k q.name) cid req

/-- The trailing-dot normalization in `main` (source lines 64-66):
`if !strings.HasSuffix(s[0], ".") { s[0] += "." }`. -/
def normalizeSuffix (s : Str) : Str :=
  if (str ".").isSuffixOf s then s else s ++ str "."

/-- Go map assignment `routes[k] = v`: overwrite the entry if the key is
present, else add it.  The association list stands for the map in some
iteration order. -/
def addRoute (routes : List (Str × Str)) (k v : Str) : List (Str × Str) :=
  if routes.any (fun p => p.1 == k) then
    routes.map (fun p => if p.1 == k then (k, v) else p)
  else routes ++ [(k, v)]

/-- Go's `strings.SplitN(s, sep, 2)` for a one-character separator: split at
the first occurrence only; a string with no separator yields a singleton. -/
def splitN2 (c : Char) (s : Str) : List Str :=
  match idxOf? c s with
  | none => [s]
  | some i => [s.take i, s.drop (i + 1)]

/-- The route-list loop of `main` (source lines 59-68): each comma-separated
entry is split at its first `=`; a malformed entry or an invalid host:port
aborts startup (`log.Fatal`, modelled as `none`); otherwise the
dot-normalized domain is inserted into the table. -/
def buildRoutesAux : List Str → List (Str × Str) → Option (List (Str × Str))
  | [], acc => some acc
  | s :: ss, acc =>
    match splitN2 '=' s with
    | [dom, hp] =>
      if validHostPort hp then buildRoutesAux ss (addRoute acc (normalizeSuffix dom) hp)
      else none
    | _ => none

/-- Route-table construction in `main` (source lines 57-69): an empty
`-route` flag yields an empty table; otherwise the flag is split on commas
and each entry processed by `buildRoutesAux`. -/
def buildRoutes (routeList : Str) : Option (List (Str × Str)) :=
  if routeList == [] then some []
  else buildRoutesAux (routeList.splitOn ',') []

/-- Allow-list construction in `main` (source line 56):
`transferIPs = strings.Split(*allowTransfer, ",")`. -/
def buildTransferIPs (allowTransfer : Str) : List Str :=
  allowTransfer.splitOn ','

/-! ## Test fixtures used by the witness theorems -/

/-- An AXFR question for `example.com.`. -/
def axfrMsg : Msg := ⟨[⟨str "example.com.", TypeAXFR, 1⟩]⟩

/-- An ordinary A-record query (`dns.TypeA = 1`). -/
def aMsg : Msg := ⟨[⟨str "www.example.com.", 1, 1⟩]⟩

/-- A message with an empty question section. -/
def emptyMsg : Msg := ⟨[]⟩

/-- A client reaching the proxy over UDP from `5.6.7.8:1234`. -/
def udpClient : ClientId := ⟨str "5.6.7.8:1234", false⟩

/-- A network oracle on which every upstream operation succeeds. -/
def okNetwork : Network :=
  ⟨fun _ _ _ => some emptyMsg, fun _ _ => some [emptyMsg], fun _ _ _ => true⟩

/-! ## Helper lemmas -/

/-- Dot-normalization always yields a key with a trailing dot. -/
theorem normalizeSuffix_dot (s : Str) : (str ".").isSuffixOf (normalizeSuffix s) = true := by
  unfold normalizeSuffix
  split
  · assumption
  · simp only [List.isSuffixOf_iff_suffix]
    exact List.suffix_append s (str ".")

/-- Go-map insertion preserves a property of the keys. -/
theorem addRoute_keyProp (P : Str → Prop) (routes : List (Str × Str)) (k v : Str)
    (hr : ∀ p ∈ routes, P p.1) (hk : P k) : ∀ p ∈ addRoute routes k v, P p.1 := by
  intro p hp
  unfold addRoute at hp
  split at hp
  · obtain ⟨q, hq, hqp⟩ := List.mem_map.1 hp
    by_cases h : q.1 = k
    · simp only [h, beq_self_eq_true, if_true] at hqp
      rw [← hqp]
      exact hk
    · simp only [beq_eq_false_iff_ne.2 h, Bool.false_eq_true, if_false] at hqp
      rw [← hqp]
      exact hr q hq
  · rcases List.mem_append.1 hp with h | h
    · exact hr p h
    · rw [List.mem_singleton.1 h]
      exact hk

/-- Every key the route-list loop puts into the table has a trailing dot. -/
theorem buildRoutesAux_dot (ss : List Str) (acc rts : List (Str × Str))
    (hacc : ∀ p ∈ acc, (str ".").isSuffixOf p.1 = true)
    (h : buildRoutesAux ss acc = some rts) :
    ∀ p ∈ rts, (str ".").isSuffixOf p.1 = true := by
  induction ss generalizing acc with
  | nil =>
    simp only [buildRoutesAux, Option.some.injEq] at h
    rw [← h]
    exact hacc
  | cons s ss ih =>
    unfold buildRoutesAux at h
    split at h
    · split at h
      · exact ih _
          (addRoute_keyProp (fun s => (str ".").isSuffixOf s = true) _ _ _ hacc
            (normalizeSuffix_dot _)) h
      · exact absurd h (by simp)
    · exact absurd h (by simp)

/-- Every key of a table built from configuration has a trailing dot. -/
theorem buildRoutes_dot (rl : Str) (rts : List (Str × Str)) (h : buildRoutes rl = some rts) :
    ∀ p ∈ rts, (str ".").isSuffixOf p.1 = true := by
  unfold buildRoutes at h
  split at h
  · simp only [Option.some.injEq] at h
    rw [← h]
    intro p hp
    exact absurd hp (List.not_mem_nil p)
  · exact buildRoutesAux_dot _ _ _ (by intro p hp; exact absurd hp (List.not_mem_nil p)) h

/-- A matching head route wins the selection loop. -/
theorem selectUpstream_cons_pos (a : Str × Str) (rest : List (Str × Str)) (k : Nat)
    (name : Str) (h : a.1.isSuffixOf name = true) :
    selectUpstream (a :: rest) k name = a.2 := by
  simp [selectUpstream, List.find?_cons_of_pos, h]

/-- A non-matching head route is skipped by the selection loop. -/
theorem selectUpstream_cons_neg (a : Str × Str) (rest : List (Str × Str)) (k : Nat)
    (name : Str) (h : a.1.isSuffixOf name = false) :
    selectUpstream (a :: rest) k name = selectUpstream rest k name := by
  simp [selectUpstream, List.find?_cons_of_neg, h]

/-- The random fallback always picks a member of the pool. -/
theorem randomPublicServer_mem (k : Nat) : randomPublicServer k ∈ publicServer := by
  unfold randomPublicServer
  have h : k % publicServer.length < publicServer.length :=
    Nat.mod_lt _ (by decide)
  rw [List.getD_eq_getElem?_getD, List.getElem?_eq_getElem h]
  simp only [Option.getD_some]
  exact List.getElem_mem h

/-- The loop of `isTransfer` fires exactly on a question of type AXFR or IXFR. -/
theorem isTransferQ_iff (l : List Question) :
    isTransferQ l = true ↔ ∃ q ∈ l, q.qtype = TypeAXFR ∨ q.qtype = TypeIXFR := by
  induction l with
  | nil => simp [isTransferQ]
  | cons q qs ih =>
    unfold isTransferQ
    by_cases h : q.qtype = TypeIXFR ∨ q.qtype = TypeAXFR
    · have hb : (q.qtype == TypeIXFR || q.qtype == TypeAXFR) = true := by
        rcases h with h | h
        · simp [h]
        · simp [h]
      simp only [hb, if_true, true_iff]
      exact ⟨q, List.mem_cons_self q qs, h.symm⟩
    · have hb : (q.qtype == TypeIXFR || q.qtype == TypeAXFR) = false := by
        push_neg at h
        simp [h.1, h.2]
      simp only [hb, Bool.false_eq_true, if_false]
      rw [ih]
      constructor
      · rintro ⟨x, hx, hor⟩
        exact ⟨x, List.mem_cons_of_mem q hx, hor⟩
      · rintro ⟨x, hx, hor⟩
        rcases List.mem_cons.1 hx with rfl | hx
        · exact absurd hor.symm h
        · exact ⟨x, hx, hor⟩

/-! ## Claims -/

/-- C1, counterexample: the claim's second half fails on the code.  A table
built from the configuration `example.com=1.2.3.4:53` stores the key
`example.com.` (trailing dot added), yet a query for `notexample.com.` does
select that route: plain trailing-string matching is not separator-aligned,
and the selected upstream `1.2.3.4:53` is not in the public pool, so the
result can only come from the configured route. -/
theorem C1_counterexample :
    buildRoutes (str "example.com=1.2.3.4:53")
      = some [(str "example.com.", str "1.2.3.4:53")] ∧
    (str "example.com.").isSuffixOf (str "notexample.com.") = true ∧
    selectUpstream [(str "example.com.", str "1.2.3.4:53")] 0 (str "notexample.com.")
      = str "1.2.3.4:53" ∧
    str "1.2.3.4:53" ∉ publicServer := by
  refine ⟨by decide, by decide, by decide, by decide⟩

/-- C1 (amended): every suffix key stored in the routing table ends with a
trailing domain separator, but suffix matching is a plain trailing-string
comparison that is not separator-aligned: for a routing table containing the
suffix `example.com.`, a query for the name `notexample.com.` does select
that route. -/
theorem C1_trailing_dot_keys (rl : Str) (rts : List (Str × Str))
    (h : buildRoutes rl = some rts) :
    (∀ p ∈ rts, (str ".").isSuffixOf p.1 = true) ∧
    selectUpstream [(str "example.com.", str "1.2.3.4:53")] 0 (str "notexample.com.")
      = str "1.2.3.4:53" :=
  ⟨buildRoutes_dot rl rts h, by decide⟩

/-- Witness for C1: the amended theorem applied to the configuration
`example.com=1.2.3.4:53`. -/
theorem C1_trailing_dot_keys_witness :
    (∀ p ∈ [(str "example.com.", str "1.2.3.4:53")], (str ".").isSuffixOf p.1 = true) ∧
    selectUpstream [(str "example.com.", str "1.2.3.4:53")] 0 (str "notexample.com.")
      = str "1.2.3.4:53" :=
  C1_trailing_dot_keys (str "example.com=1.2.3.4:53")
    [(str "example.com.", str "1.2.3.4:53")] (by decide)

/-- C2: a zone-transfer query arriving over UDP always gets the standard
failure response, with no upstream contact and no transfer data relayed,
whatever the routing table, allow-list, and network oracle. -/
theorem C2_transfer_over_udp (rts : List (Str × Str)) (ips : List Str)
    (net : Network) (k : Nat) (cid : ClientId) (req : Msg)
    (ht : isTransfer req = true) (hudp : cid.remoteIsTCP = false) :
    route rts ips net k cid req = ⟨Response.failure, []⟩ := by
  unfold route
  split
  · rfl
  · split
    · rfl
    · simp [proxy, ht, hudp]

/-- Witness for C2: an AXFR query over UDP from an allow-listed client, with
an all-successful network oracle, still fails with no upstream contact. -/
theorem C2_transfer_over_udp_witness :
    route [] [str "5.6.7.8"] okNetwork 0 udpClient axfrMsg = ⟨Response.failure, []⟩ :=
  C2_transfer_over_udp [] [str "5.6.7.8"] okNetwork 0 udpClient axfrMsg (by decide) rfl

/-- C3: for a transfer query, `allowed` returns `true` iff the host portion
of the client's remote address (port stripped) string-matches an allow-list
entry, and when it returns `false` the handler emits the standard failure
response without contacting any upstream. -/
theorem C3_transfer_authorization (rts : List (Str × Str)) (ips : List Str)
    (net : Network) (k : Nat) (cid : ClientId) (req : Msg)
    (ht : isTransfer req = true) :
    (allowed ips cid req = true ↔ remoteHost cid.remoteAddr ∈ ips) ∧
    (allowed ips cid req = false →
      route rts ips net k cid req = ⟨Response.failure, []⟩) := by
  constructor
  · unfold allowed
    rw [ht]
    simp [List.any_eq_true]
  · intro hfalse
    unfold route
    rw [hfalse]
    simp

/-- Witness for C3: a transfer from `5.6.7.8:1234` against the allow-list
`["1.2.3.4"]` is denied and fails with no upstream contact. -/
theorem C3_transfer_authorization_witness :
    (allowed [str "1.2.3.4"] udpClient axfrMsg = true ↔
      remoteHost udpClient.remoteAddr ∈ [str "1.2.3.4"]) ∧
    (allowed [str "1.2.3.4"] udpClient axfrMsg = false →
      route [] [str "1.2.3.4"] okNetwork 0 udpClient axfrMsg = ⟨Response.failure, []⟩) :=
  C3_transfer_authorization [] [str "1.2.3.4"] okNetwork 0 udpClient axfrMsg (by decide)

/-- C6: a query with zero question entries gets the standard failure
response immediately, with no upstream contact. -/
theorem C6_empty_question (rts : List (Str × Str)) (ips : List Str)
    (net : Network) (k : Nat) (cid : ClientId) (req : Msg)
    (hq : req.question = []) :
    route rts ips net k cid req = ⟨Response.failure, []⟩ := by
  unfold route
  rw [hq]
  simp

/-- Witness for C6: the question-less message fails with no upstream
contact even on an all-successful network oracle. -/
theorem C6_empty_question_witness :
    route [] [] okNetwork 0 udpClient emptyMsg = ⟨Response.failure, []⟩ :=
  C6_empty_question [] [] okNetwork 0 udpClient emptyMsg rfl

/-- C4: when a route's suffix matches the queried name and no other
configured suffix matches it, the selection loop returns exactly that
route's upstream, whatever the table's iteration order and the random
draw.  Table keys are pairwise distinct, as in a Go map. -/
theorem C4_matching_route_selected (rts : List (Str × Str)) (suffix upstream : Str)
    (k : Nat) (name : Str) (hmem : (suffix, upstream) ∈ rts)
    (hmatch : suffix.isSuffixOf name = true)
    (hkeys : (rts.map Prod.fst).Nodup)
    (hother : ∀ p ∈ rts, p.1 ≠ suffix → p.1.isSuffixOf name = false) :
    selectUpstream rts k name = upstream := by
  induction rts with
  | nil => exact absurd hmem (List.not_mem_nil _)
  | cons a rest ih =>
    rcases List.mem_cons.1 hmem with heq | hrest
    · rw [← heq]
      exact selectUpstream_cons_pos (suffix, upstream) rest k name hmatch
    · have ha1 : a.1 ≠ suffix := by
        intro h
        rw [List.map_cons, List.nodup_cons] at hkeys
        exact hkeys.1 (h ▸ List.mem_map_of_mem Prod.fst hrest)
      rw [selectUpstream_cons_neg a rest k name
        (hother a (List.mem_cons_self a rest) ha1)]
      refine ih hrest ?_ ?_
      · rw [List.map_cons, List.nodup_cons] at hkeys
        exact hkeys.2
      · intro p hp hne
        exact hother p (List.mem_cons_of_mem a hp) hne

/-- Witness for C4: the table `{example.com. ↦ 8.8.4.4:53}` routes a query
for `subdomain.example.com.` to `8.8.4.4:53`. -/
theorem C4_matching_route_selected_witness :
    selectUpstream [(str "example.com.", str "8.8.4.4:53")] 0
      (str "subdomain.example.com.") = str "8.8.4.4:53" :=
  C4_matching_route_selected [(str "example.com.", str "8.8.4.4:53")]
    (str "example.com.") (str "8.8.4.4:53") 0 (str "subdomain.example.com.")
    (by decide) (by decide) (by decide) (by decide)

/-- C5: when no configured suffix matches the queried name, the selection
loop returns a member of the built-in public resolver pool; being a total
function into `Str`, it always returns exactly one address and never
fails. -/
theorem C5_fallback_in_pool (rts : List (Str × Str)) (k : Nat) (name : Str)
    (hnone : ∀ p ∈ rts, p.1.isSuffixOf name = false) :
    selectUpstream rts k name ∈ publicServer := by
  unfold selectUpstream
  rw [List.find?_eq_none.2 (by intro p hp; simp [hnone p hp])]
  exact randomPublicServer_mem k

/-- Witness for C5: a query for `other.net.` against the table
`{example.com. ↦ 8.8.4.4:53}` falls back to the pool. -/
theorem C5_fallback_in_pool_witness :
    selectUpstream [(str "example.com.", str "8.8.4.4:53")] 0 (str "other.net.")
      ∈ publicServer :=
  C5_fallback_in_pool [(str "example.com.", str "8.8.4.4:53")] 0 (str "other.net.")
    (by decide)

/-- C7: an ordinary query is exchanged exactly once with the chosen
upstream, over tcp iff the client's remote address is a TCP address and udp
otherwise; on success the upstream's reply is written verbatim, and on a
transport error the standard failure response is produced, with no retry
and no fallback to a different upstream. -/
theorem C7_ordinary_forwarding (net : Network) (addr : Str) (cid : ClientId)
    (req : Msg) (ho : isTransfer req = false) :
    (∀ resp, net.exchange (if cid.remoteIsTCP then Transport.tcp else Transport.udp)
        addr req = some resp →
      proxy net addr cid req = ⟨Response.answer resp,
        [(addr, if cid.remoteIsTCP then Transport.tcp else Transport.udp)]⟩) ∧
    (net.exchange (if cid.remoteIsTCP then Transport.tcp else Transport.udp)
        addr req = none →
      proxy net addr cid req = ⟨Response.failure,
        [(addr, if cid.remoteIsTCP then Transport.tcp else Transport.udp)]⟩) := by
  constructor
  · intro resp h
    simp [proxy, ho, h]
  · intro h
    simp [proxy, ho, h]

/-- Witness for C7: an A-record query from the UDP client, on an oracle
whose exchange succeeds, is answered verbatim after one UDP exchange with
the chosen upstream. -/
theorem C7_ordinary_forwarding_witness :
    proxy okNetwork (str "8.8.8.8:53") udpClient aMsg
      = ⟨Response.answer emptyMsg, [(str "8.8.8.8:53", Transport.udp)]⟩ :=
  (C7_ordinary_forwarding okNetwork (str "8.8.8.8:53") udpClient aMsg rfl).1
    emptyMsg rfl

/-- C8: for a query with at least one question entry, the classifier
reports a zone transfer iff some question entry has record type AXFR or
IXFR; `isTransfer` is a pure function of the message, so the classification
has no side effects. -/
theorem C8_classifier (req : Msg) (_hq : req.question ≠ []) :
    isTransfer req = true ↔
      ∃ q ∈ req.question, q.qtype = TypeAXFR ∨ q.qtype = TypeIXFR :=
  isTransferQ_iff req.question

/-- Witness for C8: the AXFR fixture is classified as a transfer. -/
theorem C8_classifier_witness :
    isTransfer axfrMsg = true ↔
      ∃ q ∈ axfrMsg.question, q.qtype = TypeAXFR ∨ q.qtype = TypeIXFR :=
  C8_classifier axfrMsg (by decide)

/-- C9: with an empty allow-transfer configuration the allow-list is the
singleton list containing the empty string; a transfer query is then
authorized iff the host portion extracted from the client's remote address
is empty (which is what `remote` holds when `net.SplitHostPort` fails), and
every client whose remote address is a well-formed host:port is denied. -/
theorem C9_empty_allowlist (cid : ClientId) (req : Msg)
    (ht : isTransfer req = true) :
    buildTransferIPs [] = [[]] ∧
    (allowed (buildTransferIPs []) cid req = true ↔ remoteHost cid.remoteAddr = []) ∧
    (validHostPort cid.remoteAddr = true →
      allowed (buildTransferIPs []) cid req = false) := by
  refine ⟨rfl, ?_, ?_⟩
  · unfold allowed
    rw [ht]
    simp only [Bool.not_true, Bool.false_eq_true, if_false]
    have hb : buildTransferIPs [] = [[]] := rfl
    rw [hb]
    simp only [List.any_cons, List.any_nil, Bool.or_false, beq_iff_eq]
    exact eq_comm
  · intro hv
    unfold validHostPort at hv
    unfold allowed
    rw [ht]
    simp only [Bool.not_true, Bool.false_eq_true, if_false]
    unfold remoteHost
    cases hsp : splitHostPort cid.remoteAddr with
    | none => rw [hsp] at hv; exact absurd hv (by simp)
    | some p =>
      rw [hsp] at hv
      simp only [Bool.and_eq_true, Bool.not_eq_eq_eq_not, Bool.not_true,
        beq_eq_false_iff_ne] at hv
      obtain ⟨h1, h2⟩ := p
      have hb : buildTransferIPs [] = [[]] := rfl
      rw [hb]
      simp only [List.any_cons, List.any_nil, Bool.or_false, beq_eq_false_iff_ne]
      exact Ne.symm hv.1

/-- Witness for C9: an AXFR from `5.6.7.8:1234` under the empty
configuration: the allow-list is `[""]`, authorization reduces to the host
portion being empty, and this well-formed client address is denied. -/
theorem C9_empty_allowlist_witness :
    buildTransferIPs [] = [[]] ∧
    (allowed (buildTransferIPs []) udpClient axfrMsg = true ↔
      remoteHost udpClient.remoteAddr = []) ∧
    (validHostPort udpClient.remoteAddr = true →
      allowed (buildTransferIPs []) udpClient axfrMsg = false) :=
  C9_empty_allowlist udpClient axfrMsg (by decide)

/-- C10: the pool entry `209.244.0.3` fails the host:port validity check
applied to configured routes, and a query matching no route can select it:
with an empty table and random draw 3, the selector returns exactly this
portless address. -/
theorem C10_pool_invalid_hostport :
    str "209.244.0.3" ∈ publicServer ∧
    validHostPort (str "209.244.0.3") = false ∧
    selectUpstream [] 3 (str "a.example.") = str "209.244.0.3" ∧
    validHostPort (selectUpstream [] 3 (str "a.example.")) = false := by
  refine ⟨by decide, by decide, by decide, by decide⟩

end DnsReverseProxy
